import Mathlib

/-!
Verification of the MSRApi client (src/msrapi/__init__.py): a thin Python
binding for the MotorsportReg REST API. The embedding below translates the
data model and every public operation of the class `MSRAPi` into Lean.
HTTP transport is modelled as a function from requests to either a
transport-layer error or a response carrying a status code and a decoded
JSON body; each client method is translated statement by statement,
threading the (never-mutated) client state explicitly.
-/

/-- JSON values, the payload and response language of the API. -/
inductive Json where
  | null : Json
  | bool : Bool → Json
  | num : Int → Json
  | str : String → Json
  | arr : List Json → Json
  | obj : List (String × Json) → Json

/-- Escape a single character for JSON string output (quote and backslash). -/
def escapeChar (c : Char) : String :=
  if c = '"' then "\\\"" else if c = '\\' then "\\\\" else String.singleton c

/-- Escape a string for JSON output. -/
def escapeString (s : String) : String :=
  String.join (s.toList.map escapeChar)

mutual

/-- Models the Python standard library function `json.dumps` with its default
separators (item separator a comma and a space, key separator a colon and a
space), used by `pr_post_logbook_entry` to serialize the POST payload. -/
def Json.dumps : Json → String
  | Json.null => "null"
  | Json.bool b => cond b "true" "false"
  | Json.num n => toString n
  | Json.str s => "\"" ++ escapeString s ++ "\""
  | Json.arr xs => "[" ++ Json.dumpsItems xs ++ "]"
  | Json.obj kvs => "\x7b" ++ Json.dumpsPairs kvs ++ "\x7d"

/-- Comma-joined serialization of array items. -/
def Json.dumpsItems : List Json → String
  | [] => ""
  | [x] => Json.dumps x
  | x :: y :: xs => Json.dumps x ++ ", " ++ Json.dumpsItems (y :: xs)

/-- Comma-joined serialization of object key-value pairs. -/
def Json.dumpsPairs : List (String × Json) → String
  | [] => ""
  | [(k, v)] => "\"" ++ escapeString k ++ "\": " ++ Json.dumps v
  | (k, v) :: kv :: kvs =>
      "\"" ++ escapeString k ++ "\": " ++ Json.dumps v ++ ", " ++
        Json.dumpsPairs (kv :: kvs)

end

/-- HTTP methods used by the client (`requests.get` and `requests.post`). -/
inductive Method where
  | GET : Method
  | POST : Method
deriving DecidableEq, Repr

/-- An HTTP request as the client hands it to the `requests` library:
method, URL, optional HTTP Basic credentials (username, password),
extra headers, and an optional body. -/
structure Request where
  method : Method
  url : String
  auth : Option (String × String)
  headers : List (String × String)
  body : Option String
deriving DecidableEq, Repr

/-- An HTTP response as seen by the client after `r.json()` decoding:
the status code and the decoded JSON body. The raw response object the
Python code calls `r` is modelled by this structure. -/
structure Response where
  status : Nat
  jsonBody : Json

/-- Transport-layer failures (DNS, TLS, connection refused, decode error);
they propagate to the caller unchanged. -/
inductive TransportError where
  | connectionFailure : String → TransportError
  | decodeFailure : String → TransportError
deriving DecidableEq, Repr

/-- A transport: what the `requests` library does with one request. -/
def Transport : Type := Request → Except TransportError Response

/-- The client class `MSRAPi`. The field `base_url` corresponds to the
attribute named url prefix in the source; all four fields are written only
by the constructor. -/
structure MSRAPi where
  organization_id : String
  username : String
  password : String
  base_url : String
deriving DecidableEq, Repr

/-- The constructor `MSRAPi.__init__`: stores the three credential strings
verbatim and fixes the base URL of the service. -/
def MSRAPi.init (organization_id username password : String) : MSRAPi :=
  { organization_id := organization_id
    username := username
    password := password
    base_url := "https://api.motorsportreg.com/rest/" }

/-- The request issued by `_public_request`: an unauthenticated GET with no
extra headers and no body. -/
def public_get (rest_resource : String) : Request :=
  { method := Method.GET
    url := rest_resource
    auth := none
    headers := []
    body := none }

/-- The request issued by `_authenticated_request`: a GET carrying HTTP Basic
credentials from the stored username and password plus the
X-Organization-Id header carrying the stored organization identifier. -/
def MSRAPi.auth_get (self : MSRAPi) (rest_resource : String) : Request :=
  { method := Method.GET
    url := rest_resource
    auth := some (self.username, self.password)
    headers := [("X-Organization-Id", self.organization_id)]
    body := none }

/-- `_public_request`: issue the unauthenticated GET through the transport and
return the decoded JSON body; a transport failure propagates unchanged. The
second component is the client state after the call. -/
def MSRAPi.public_request (self : MSRAPi) (t : Transport) (rest_resource : String) :
    Except TransportError Json × MSRAPi :=
  match t (public_get rest_resource) with
  | Except.error e => (Except.error e, self)
  | Except.ok r => (Except.ok r.jsonBody, self)

/-- `_authenticated_request`: issue the authenticated GET through the transport
and return the decoded JSON body; a transport failure propagates unchanged. -/
def MSRAPi.authenticated_request (self : MSRAPi) (t : Transport) (rest_resource : String) :
    Except TransportError Json × MSRAPi :=
  match t (self.auth_get rest_resource) with
  | Except.error e => (Except.error e, self)
  | Except.ok r => (Except.ok r.jsonBody, self)

/-- URL built by `public_calendar`. -/
def MSRAPi.public_calendar_resource (self : MSRAPi) (organization_id : String) : String :=
  self.base_url ++ "calendars/organization/" ++ organization_id ++ ".json"

/-- `public_calendar`: GET /rest/calendars/organization/(organization_id),
dispatched through the public (unauthenticated) primitive. -/
def MSRAPi.public_calendar (self : MSRAPi) (t : Transport) (organization_id : String) :
    Except TransportError Json × MSRAPi :=
  self.public_request t (self.public_calendar_resource organization_id)

/-- URL built by `pr_calendar`. -/
def MSRAPi.pr_calendar_resource (self : MSRAPi) : String :=
  self.base_url ++ "calendars.json"

/-- `pr_calendar`: GET /rest/calendars, authenticated. -/
def MSRAPi.pr_calendar (self : MSRAPi) (t : Transport) :
    Except TransportError Json × MSRAPi :=
  self.authenticated_request t self.pr_calendar_resource

/-- URL built by `pr_venue_calendar`. -/
def MSRAPi.pr_venue_calendar_resource (self : MSRAPi) (venue_id : String) : String :=
  self.base_url ++ "calendars/venue/" ++ venue_id ++ ".json"

/-- `pr_venue_calendar`: GET /rest/calendars/venue/(venue_id), authenticated. -/
def MSRAPi.pr_venue_calendar (self : MSRAPi) (t : Transport) (venue_id : String) :
    Except TransportError Json × MSRAPi :=
  self.authenticated_request t (self.pr_venue_calendar_resource venue_id)

/-- URL built by `pr_calendar_by_type`. -/
def MSRAPi.pr_calendar_by_type_resource (self : MSRAPi) (type_id : String) : String :=
  self.base_url ++ "calendars/type/" ++ type_id ++ ".json"

/-- `pr_calendar_by_type`: GET /rest/calendars/type/(type_id), authenticated. -/
def MSRAPi.pr_calendar_by_type (self : MSRAPi) (t : Transport) (type_id : String) :
    Except TransportError Json × MSRAPi :=
  self.authenticated_request t (self.pr_calendar_by_type_resource type_id)

/-- URL built by `pr_attendees`: the include_questions flag (default True in
the source) selects whether the fields=questions query parameter is sent. -/
def MSRAPi.pr_attendees_resource (self : MSRAPi) (event_id : String)
    (include_questions : optParam Bool true) : String :=
  if include_questions = true then
    self.base_url ++ "events/" ++ event_id ++ "/attendees.json?fields=questions"
  else
    self.base_url ++ "events/" ++ event_id ++ "/attendees.json"

/-- `pr_attendees`: GET /rest/events/(event_id)/attendees, authenticated. -/
def MSRAPi.pr_attendees (self : MSRAPi) (t : Transport) (event_id : String)
    (include_questions : optParam Bool true) :
    Except TransportError Json × MSRAPi :=
  self.authenticated_request t (self.pr_attendees_resource event_id include_questions)

/-- URL built by `pr_assignments`: the four combinations of the two flags
(both default True in the source) select the fields query parameter. -/
def MSRAPi.pr_assignments_resource (self : MSRAPi) (event_id : String)
    (include_instructors : optParam Bool true) (include_team : optParam Bool true) : String :=
  if include_instructors = true ∧ include_team = true then
    self.base_url ++ "events/" ++ event_id ++ "/assignments.json?fields=instructors,team"
  else if include_instructors = true ∧ include_team = false then
    self.base_url ++ "events/" ++ event_id ++ "/assignments.json?fields=instructors"
  else if include_instructors = false ∧ include_team = true then
    self.base_url ++ "events/" ++ event_id ++ "/assignments.json?fields=team"
  else
    self.base_url ++ "events/" ++ event_id ++ "/assignments.json"

/-- `pr_assignments`: GET /rest/events/(event_id)/assignments, authenticated. -/
def MSRAPi.pr_assignments (self : MSRAPi) (t : Transport) (event_id : String)
    (include_instructors : optParam Bool true) (include_team : optParam Bool true) :
    Except TransportError Json × MSRAPi :=
  self.authenticated_request t
    (self.pr_assignments_resource event_id include_instructors include_team)

/-- URL built by `pr_assignments_by_segment`: same flag combination rule as
`pr_assignments`. -/
def MSRAPi.pr_assignments_by_segment_resource (self : MSRAPi)
    (event_id segment_id : String)
    (include_instructors : optParam Bool true) (include_team : optParam Bool true) : String :=
  if include_instructors = true ∧ include_team = true then
    self.base_url ++ "events/" ++ event_id ++ "/segments/" ++ segment_id ++
      "/assignments.json?fields=instructors,team"
  else if include_instructors = true ∧ include_team = false then
    self.base_url ++ "events/" ++ event_id ++ "/segments/" ++ segment_id ++
      "/assignments.json?fields=instructors"
  else if include_instructors = false ∧ include_team = true then
    self.base_url ++ "events/" ++ event_id ++ "/segments/" ++ segment_id ++
      "/assignments.json?fields=team"
  else
    self.base_url ++ "events/" ++ event_id ++ "/segments/" ++ segment_id ++
      "/assignments.json"

/-- `pr_assignments_by_segment`: GET
/rest/events/(event_id)/segments/(segment_id)/assignments, authenticated. -/
def MSRAPi.pr_assignments_by_segment (self : MSRAPi) (t : Transport)
    (event_id segment_id : String)
    (include_instructors : optParam Bool true) (include_team : optParam Bool true) :
    Except TransportError Json × MSRAPi :=
  self.authenticated_request t
    (self.pr_assignments_by_segment_resource event_id segment_id
      include_instructors include_team)

/-- URL built by `pr_event_segments`. -/
def MSRAPi.pr_event_segments_resource (self : MSRAPi) (event_id : String) : String :=
  self.base_url ++ "events/" ++ event_id ++ "/segments.json"

/-- `pr_event_segments`: GET /rest/events/(event_id)/segments, authenticated. -/
def MSRAPi.pr_event_segments (self : MSRAPi) (t : Transport) (event_id : String) :
    Except TransportError Json × MSRAPi :=
  self.authenticated_request t (self.pr_event_segments_resource event_id)

/-- URL built by `pr_members`. -/
def MSRAPi.pr_members_resource (self : MSRAPi) : String :=
  self.base_url ++ "members.json"

/-- `pr_members`: GET /rest/members, authenticated. -/
def MSRAPi.pr_members (self : MSRAPi) (t : Transport) :
    Except TransportError Json × MSRAPi :=
  self.authenticated_request t self.pr_members_resource

/-- URL built by `pr_member`: the four combinations of the two flags (both
default True in the source) select the fields query parameter. -/
def MSRAPi.pr_member_resource (self : MSRAPi) (member_id : String)
    (include_questions : optParam Bool true) (include_history : optParam Bool true) : String :=
  if include_questions = true ∧ include_history = true then
    self.base_url ++ "members/" ++ member_id ++ ".json?fields=questions,history"
  else if include_questions = true ∧ include_history = false then
    self.base_url ++ "members/" ++ member_id ++ ".json?fields=questions"
  else if include_questions = false ∧ include_history = true then
    self.base_url ++ "members/" ++ member_id ++ ".json?fields=history"
  else
    self.base_url ++ "members/" ++ member_id ++ ".json"

/-- `pr_member`: GET /rest/members/(member_id), authenticated. -/
def MSRAPi.pr_member (self : MSRAPi) (t : Transport) (member_id : String)
    (include_questions : optParam Bool true) (include_history : optParam Bool true) :
    Except TransportError Json × MSRAPi :=
  self.authenticated_request t
    (self.pr_member_resource member_id include_questions include_history)

/-- URL built by `pr_profile`. -/
def MSRAPi.pr_profile_resource (self : MSRAPi) (profile_id : String) : String :=
  self.base_url ++ "profiles/" ++ profile_id ++ ".json"

/-- `pr_profile`: GET /rest/profiles/(profile_id), authenticated. -/
def MSRAPi.pr_profile (self : MSRAPi) (t : Transport) (profile_id : String) :
    Except TransportError Json × MSRAPi :=
  self.authenticated_request t (self.pr_profile_resource profile_id)

/-- URL built by `pr_member_vehicles`. -/
def MSRAPi.pr_member_vehicles_resource (self : MSRAPi) (member_id : String) : String :=
  self.base_url ++ "members/" ++ member_id ++ "/vehicles.json"

/-- `pr_member_vehicles`: GET /rest/members/(member_id)/vehicles,
authenticated. -/
def MSRAPi.pr_member_vehicles (self : MSRAPi) (t : Transport) (member_id : String) :
    Except TransportError Json × MSRAPi :=
  self.authenticated_request t (self.pr_member_vehicles_resource member_id)

/-- URL built by `pr_member_vehicle`. -/
def MSRAPi.pr_member_vehicle_resource (self : MSRAPi) (member_id vehicle_id : String) : String :=
  self.base_url ++ "members/" ++ member_id ++ "/vehicles/" ++ vehicle_id ++ ".json"

/-- `pr_member_vehicle`: GET /rest/members/(member_id)/vehicles/(vehicle_id),
authenticated. -/
def MSRAPi.pr_member_vehicle (self : MSRAPi) (t : Transport) (member_id vehicle_id : String) :
    Except TransportError Json × MSRAPi :=
  self.authenticated_request t (self.pr_member_vehicle_resource member_id vehicle_id)

/-- URL built by `pr_member_logbook`. -/
def MSRAPi.pr_member_logbook_resource (self : MSRAPi) (member_id : String) : String :=
  self.base_url ++ "members/" ++ member_id ++ "/logbook.json"

/-- `pr_member_logbook`: GET /rest/members/(member_id)/logbook,
authenticated. -/
def MSRAPi.pr_member_logbook (self : MSRAPi) (t : Transport) (member_id : String) :
    Except TransportError Json × MSRAPi :=
  self.authenticated_request t (self.pr_member_logbook_resource member_id)

/-- URL built by `pr_logbook_types`. -/
def MSRAPi.pr_logbook_types_resource (self : MSRAPi) : String :=
  self.base_url ++ "logbooks/types.json"

/-- `pr_logbook_types`: GET /rest/logbooks/types, authenticated. -/
def MSRAPi.pr_logbook_types (self : MSRAPi) (t : Transport) :
    Except TransportError Json × MSRAPi :=
  self.authenticated_request t self.pr_logbook_types_resource

/-- URL built by `pr_get_logbook_entry`. -/
def MSRAPi.pr_get_logbook_entry_resource (self : MSRAPi) (logbook_entry_id : String) : String :=
  self.base_url ++ "logbooks/" ++ logbook_entry_id ++ ".json"

/-- `pr_get_logbook_entry`: GET /rest/logbooks/(logbook_entry_id),
authenticated. -/
def MSRAPi.pr_get_logbook_entry (self : MSRAPi) (t : Transport) (logbook_entry_id : String) :
    Except TransportError Json × MSRAPi :=
  self.authenticated_request t (self.pr_get_logbook_entry_resource logbook_entry_id)

/-- URL built by `pr_post_logbook_entry`. -/
def MSRAPi.pr_post_logbook_entry_resource (self : MSRAPi) : String :=
  self.base_url ++ "logbooks.json"

/-- The POST request issued by `pr_post_logbook_entry`: Basic credentials,
the X-Organization-Id header, the vendor-specific content type, and the
serialized payload as body. -/
def MSRAPi.pr_post_logbook_entry_request (self : MSRAPi) (payload : Json) : Request :=
  { method := Method.POST
    url := self.pr_post_logbook_entry_resource
    auth := some (self.username, self.password)
    headers := [("X-Organization-Id", self.organization_id),
                ("content-type", "application/vnd.pukkasoft+json")]
    body := some (Json.dumps payload) }

/-- `pr_post_logbook_entry`: POST /rest/logbooks. Unlike every other
operation it returns the raw transport response object, not a decoded
JSON body. -/
def MSRAPi.pr_post_logbook_entry (self : MSRAPi) (t : Transport) (payload : Json) :
    Except TransportError Response × MSRAPi :=
  (t (self.pr_post_logbook_entry_request payload), self)

/-- C1: for every path-parameterized operation and every path-parameter value,
the constructed request URL is exactly the fixed base prefix followed by the
endpoint template with the given ids substituted, ending in ".json"
byte-for-byte; in particular public_calendar with organization id 42 builds
exactly "https://api.motorsportreg.com/rest/calendars/organization/42.json". -/
theorem url_construction_exact (o u p oid vid tid eid pid mid vhid lid : String) :
    (MSRAPi.init o u p).public_calendar_resource oid =
      "https://api.motorsportreg.com/rest/calendars/organization/" ++ oid ++ ".json"
  ∧ (MSRAPi.init o u p).pr_calendar_resource =
      "https://api.motorsportreg.com/rest/calendars.json"
  ∧ (MSRAPi.init o u p).pr_venue_calendar_resource vid =
      "https://api.motorsportreg.com/rest/calendars/venue/" ++ vid ++ ".json"
  ∧ (MSRAPi.init o u p).pr_calendar_by_type_resource tid =
      "https://api.motorsportreg.com/rest/calendars/type/" ++ tid ++ ".json"
  ∧ (MSRAPi.init o u p).pr_event_segments_resource eid =
      "https://api.motorsportreg.com/rest/events/" ++ eid ++ "/segments.json"
  ∧ (MSRAPi.init o u p).pr_members_resource =
      "https://api.motorsportreg.com/rest/members.json"
  ∧ (MSRAPi.init o u p).pr_profile_resource pid =
      "https://api.motorsportreg.com/rest/profiles/" ++ pid ++ ".json"
  ∧ (MSRAPi.init o u p).pr_member_vehicles_resource mid =
      "https://api.motorsportreg.com/rest/members/" ++ mid ++ "/vehicles.json"
  ∧ (MSRAPi.init o u p).pr_member_vehicle_resource mid vhid =
      "https://api.motorsportreg.com/rest/members/" ++ mid ++ "/vehicles/" ++ vhid ++ ".json"
  ∧ (MSRAPi.init o u p).pr_member_logbook_resource mid =
      "https://api.motorsportreg.com/rest/members/" ++ mid ++ "/logbook.json"
  ∧ (MSRAPi.init o u p).pr_logbook_types_resource =
      "https://api.motorsportreg.com/rest/logbooks/types.json"
  ∧ (MSRAPi.init o u p).pr_get_logbook_entry_resource lid =
      "https://api.motorsportreg.com/rest/logbooks/" ++ lid ++ ".json"
  ∧ (public_get ((MSRAPi.init o u p).public_calendar_resource oid)).url =
      (MSRAPi.init o u p).public_calendar_resource oid
  ∧ ((MSRAPi.init o u p).auth_get ((MSRAPi.init o u p).pr_member_vehicle_resource mid vhid)).url =
      (MSRAPi.init o u p).pr_member_vehicle_resource mid vhid
  ∧ (public_get ((MSRAPi.init o u p).public_calendar_resource "42")).url =
      "https://api.motorsportreg.com/rest/calendars/organization/42.json" :=
  ⟨rfl, rfl, rfl, rfl, rfl, rfl, rfl, rfl, rfl, rfl, rfl, rfl, rfl, rfl, rfl⟩

/-- C2: for the three flag-combination operations and each of the four boolean
flag combinations, the URL carries a single comma-joined fields query
parameter in declared order (instructors before team; questions before
history) when both flags are set, a single option when one is set, and no
fields parameter when both are clear; in particular assignments for event 100
with include_instructors set and include_team clear ends in
"?fields=instructors". -/
theorem fields_flag_combinations (o u p eid sid mid : String) :
    (MSRAPi.init o u p).pr_assignments_resource eid true true =
      "https://api.motorsportreg.com/rest/events/" ++ eid ++ "/assignments.json?fields=instructors,team"
  ∧ (MSRAPi.init o u p).pr_assignments_resource eid true false =
      "https://api.motorsportreg.com/rest/events/" ++ eid ++ "/assignments.json?fields=instructors"
  ∧ (MSRAPi.init o u p).pr_assignments_resource eid false true =
      "https://api.motorsportreg.com/rest/events/" ++ eid ++ "/assignments.json?fields=team"
  ∧ (MSRAPi.init o u p).pr_assignments_resource eid false false =
      "https://api.motorsportreg.com/rest/events/" ++ eid ++ "/assignments.json"
  ∧ (MSRAPi.init o u p).pr_assignments_by_segment_resource eid sid true true =
      "https://api.motorsportreg.com/rest/events/" ++ eid ++ "/segments/" ++ sid ++
        "/assignments.json?fields=instructors,team"
  ∧ (MSRAPi.init o u p).pr_assignments_by_segment_resource eid sid true false =
      "https://api.motorsportreg.com/rest/events/" ++ eid ++ "/segments/" ++ sid ++
        "/assignments.json?fields=instructors"
  ∧ (MSRAPi.init o u p).pr_assignments_by_segment_resource eid sid false true =
      "https://api.motorsportreg.com/rest/events/" ++ eid ++ "/segments/" ++ sid ++
        "/assignments.json?fields=team"
  ∧ (MSRAPi.init o u p).pr_assignments_by_segment_resource eid sid false false =
      "https://api.motorsportreg.com/rest/events/" ++ eid ++ "/segments/" ++ sid ++
        "/assignments.json"
  ∧ (MSRAPi.init o u p).pr_member_resource mid true true =
      "https://api.motorsportreg.com/rest/members/" ++ mid ++ ".json?fields=questions,history"
  ∧ (MSRAPi.init o u p).pr_member_resource mid true false =
      "https://api.motorsportreg.com/rest/members/" ++ mid ++ ".json?fields=questions"
  ∧ (MSRAPi.init o u p).pr_member_resource mid false true =
      "https://api.motorsportreg.com/rest/members/" ++ mid ++ ".json?fields=history"
  ∧ (MSRAPi.init o u p).pr_member_resource mid false false =
      "https://api.motorsportreg.com/rest/members/" ++ mid ++ ".json"
  ∧ (MSRAPi.init o u p).pr_assignments_resource "100" true false =
      "https://api.motorsportreg.com/rest/events/100/assignments.json?fields=instructors" :=
  ⟨rfl, rfl, rfl, rfl, rfl, rfl, rfl, rfl, rfl, rfl, rfl, rfl, rfl⟩

/-- C3: every authenticated operation dispatches through the authenticated
primitive, whose request carries HTTP Basic credentials equal to the stored
username and password and exactly the X-Organization-Id header carrying the
stored organization identifier (the POST operation carries them as well);
the public operation public_calendar dispatches through the public
primitive, whose request carries neither credentials nor headers. -/
theorem auth_dispatch_and_headers (o u p r oid vid tid eid sid mid vhid pid lid : String)
    (payload : Json) :
    ((MSRAPi.init o u p).auth_get r).auth = some (u, p)
  ∧ ((MSRAPi.init o u p).auth_get r).headers = [("X-Organization-Id", o)]
  ∧ (public_get r).auth = none
  ∧ (public_get r).headers = []
  ∧ ((MSRAPi.init o u p).pr_post_logbook_entry_request payload).auth = some (u, p)
  ∧ ((MSRAPi.init o u p).pr_post_logbook_entry_request payload).headers =
      [("X-Organization-Id", o), ("content-type", "application/vnd.pukkasoft+json")]
  ∧ (∀ t : Transport, (MSRAPi.init o u p).public_calendar t oid =
      (MSRAPi.init o u p).public_request t ((MSRAPi.init o u p).public_calendar_resource oid))
  ∧ (∀ t : Transport, (MSRAPi.init o u p).pr_calendar t =
      (MSRAPi.init o u p).authenticated_request t (MSRAPi.init o u p).pr_calendar_resource)
  ∧ (∀ t : Transport, (MSRAPi.init o u p).pr_venue_calendar t vid =
      (MSRAPi.init o u p).authenticated_request t
        ((MSRAPi.init o u p).pr_venue_calendar_resource vid))
  ∧ (∀ t : Transport, (MSRAPi.init o u p).pr_calendar_by_type t tid =
      (MSRAPi.init o u p).authenticated_request t
        ((MSRAPi.init o u p).pr_calendar_by_type_resource tid))
  ∧ (∀ (t : Transport) (q : Bool), (MSRAPi.init o u p).pr_attendees t eid q =
      (MSRAPi.init o u p).authenticated_request t
        ((MSRAPi.init o u p).pr_attendees_resource eid q))
  ∧ (∀ (t : Transport) (i tm : Bool), (MSRAPi.init o u p).pr_assignments t eid i tm =
      (MSRAPi.init o u p).authenticated_request t
        ((MSRAPi.init o u p).pr_assignments_resource eid i tm))
  ∧ (∀ (t : Transport) (i tm : Bool),
      (MSRAPi.init o u p).pr_assignments_by_segment t eid sid i tm =
      (MSRAPi.init o u p).authenticated_request t
        ((MSRAPi.init o u p).pr_assignments_by_segment_resource eid sid i tm))
  ∧ (∀ t : Transport, (MSRAPi.init o u p).pr_event_segments t eid =
      (MSRAPi.init o u p).authenticated_request t
        ((MSRAPi.init o u p).pr_event_segments_resource eid))
  ∧ (∀ t : Transport, (MSRAPi.init o u p).pr_members t =
      (MSRAPi.init o u p).authenticated_request t (MSRAPi.init o u p).pr_members_resource)
  ∧ (∀ (t : Transport) (q hq : Bool), (MSRAPi.init o u p).pr_member t mid q hq =
      (MSRAPi.init o u p).authenticated_request t
        ((MSRAPi.init o u p).pr_member_resource mid q hq))
  ∧ (∀ t : Transport, (MSRAPi.init o u p).pr_profile t pid =
      (MSRAPi.init o u p).authenticated_request t
        ((MSRAPi.init o u p).pr_profile_resource pid))
  ∧ (∀ t : Transport, (MSRAPi.init o u p).pr_member_vehicles t mid =
      (MSRAPi.init o u p).authenticated_request t
        ((MSRAPi.init o u p).pr_member_vehicles_resource mid))
  ∧ (∀ t : Transport, (MSRAPi.init o u p).pr_member_vehicle t mid vhid =
      (MSRAPi.init o u p).authenticated_request t
        ((MSRAPi.init o u p).pr_member_vehicle_resource mid vhid))
  ∧ (∀ t : Transport, (MSRAPi.init o u p).pr_member_logbook t mid =
      (MSRAPi.init o u p).authenticated_request t
        ((MSRAPi.init o u p).pr_member_logbook_resource mid))
  ∧ (∀ t : Transport, (MSRAPi.init o u p).pr_logbook_types t =
      (MSRAPi.init o u p).authenticated_request t
        (MSRAPi.init o u p).pr_logbook_types_resource)
  ∧ (∀ t : Transport, (MSRAPi.init o u p).pr_get_logbook_entry t lid =
      (MSRAPi.init o u p).authenticated_request t
        ((MSRAPi.init o u p).pr_get_logbook_entry_resource lid))
  ∧ (∀ (t : Transport), (MSRAPi.init o u p).pr_post_logbook_entry t payload =
      (t ((MSRAPi.init o u p).pr_post_logbook_entry_request payload), MSRAPi.init o u p)) :=
  ⟨rfl, rfl, rfl, rfl, rfl, rfl,
   fun _ => rfl, fun _ => rfl, fun _ => rfl, fun _ => rfl,
   fun _ _ => rfl, fun _ _ _ => rfl, fun _ _ _ => rfl,
   fun _ => rfl, fun _ => rfl, fun _ _ _ => rfl, fun _ => rfl,
   fun _ => rfl, fun _ => rfl, fun _ => rfl, fun _ => rfl, fun _ => rfl, fun _ => rfl⟩

/-- C4: for every transport that returns one fixed response for every request,
every GET operation of the client returns exactly the JSON body of that
response unmodified, and pr_post_logbook_entry returns the response wrapper
itself unmodified. -/
theorem mock_transport_pass_through
    (o u p oid vid tid eid sid mid vhid pid lid : String) (payload : Json)
    (t : Transport) (resp : Response) (h : ∀ r, t r = Except.ok resp) :
    ((MSRAPi.init o u p).public_calendar t oid).1 = Except.ok resp.jsonBody
  ∧ ((MSRAPi.init o u p).pr_calendar t).1 = Except.ok resp.jsonBody
  ∧ ((MSRAPi.init o u p).pr_venue_calendar t vid).1 = Except.ok resp.jsonBody
  ∧ ((MSRAPi.init o u p).pr_calendar_by_type t tid).1 = Except.ok resp.jsonBody
  ∧ ((MSRAPi.init o u p).pr_attendees t eid).1 = Except.ok resp.jsonBody
  ∧ ((MSRAPi.init o u p).pr_assignments t eid).1 = Except.ok resp.jsonBody
  ∧ ((MSRAPi.init o u p).pr_assignments_by_segment t eid sid).1 = Except.ok resp.jsonBody
  ∧ ((MSRAPi.init o u p).pr_event_segments t eid).1 = Except.ok resp.jsonBody
  ∧ ((MSRAPi.init o u p).pr_members t).1 = Except.ok resp.jsonBody
  ∧ ((MSRAPi.init o u p).pr_member t mid).1 = Except.ok resp.jsonBody
  ∧ ((MSRAPi.init o u p).pr_profile t pid).1 = Except.ok resp.jsonBody
  ∧ ((MSRAPi.init o u p).pr_member_vehicles t mid).1 = Except.ok resp.jsonBody
  ∧ ((MSRAPi.init o u p).pr_member_vehicle t mid vhid).1 = Except.ok resp.jsonBody
  ∧ ((MSRAPi.init o u p).pr_member_logbook t mid).1 = Except.ok resp.jsonBody
  ∧ ((MSRAPi.init o u p).pr_logbook_types t).1 = Except.ok resp.jsonBody
  ∧ ((MSRAPi.init o u p).pr_get_logbook_entry t lid).1 = Except.ok resp.jsonBody
  ∧ ((MSRAPi.init o u p).pr_post_logbook_entry t payload).1 = Except.ok resp := by
  refine ⟨?_, ?_, ?_, ?_, ?_, ?_, ?_, ?_, ?_, ?_, ?_, ?_, ?_, ?_, ?_, ?_, ?_⟩ <;>
    simp [MSRAPi.public_calendar, MSRAPi.pr_calendar, MSRAPi.pr_venue_calendar,
      MSRAPi.pr_calendar_by_type, MSRAPi.pr_attendees, MSRAPi.pr_assignments,
      MSRAPi.pr_assignments_by_segment, MSRAPi.pr_event_segments, MSRAPi.pr_members,
      MSRAPi.pr_member, MSRAPi.pr_profile, MSRAPi.pr_member_vehicles,
      MSRAPi.pr_member_vehicle, MSRAPi.pr_member_logbook, MSRAPi.pr_logbook_types,
      MSRAPi.pr_get_logbook_entry, MSRAPi.pr_post_logbook_entry,
      MSRAPi.public_request, MSRAPi.authenticated_request, h]

/-- Witness for C4 at a concrete client, transport and response. -/
theorem mock_transport_pass_through_witness :
    ((MSRAPi.init "orgid" "user" "pass").pr_calendar
      (fun _ => Except.ok (Response.mk 200 Json.null))).1 = Except.ok Json.null :=
  (mock_transport_pass_through "orgid" "user" "pass" "1" "2" "3" "4" "5" "6" "7" "8" "9"
    Json.null (fun _ => Except.ok (Response.mk 200 Json.null))
    (Response.mk 200 Json.null) (fun _ => rfl)).2.1

/-- C5: pr_post_logbook_entry issues a POST to the logbooks endpoint whose
body is the JSON serialization of the given payload, whose headers carry the
vendor-specific content type alongside Basic credentials and the organization
header, and it returns the raw transport response rather than a decoded JSON
value. -/
theorem post_logbook_request_shape (o u p : String) (payload : Json) (t : Transport) :
    ((MSRAPi.init o u p).pr_post_logbook_entry_request payload).method = Method.POST
  ∧ ((MSRAPi.init o u p).pr_post_logbook_entry_request payload).url =
      "https://api.motorsportreg.com/rest/logbooks.json"
  ∧ ((MSRAPi.init o u p).pr_post_logbook_entry_request payload).body =
      some (Json.dumps payload)
  ∧ ((MSRAPi.init o u p).pr_post_logbook_entry_request payload).headers =
      [("X-Organization-Id", o), ("content-type", "application/vnd.pukkasoft+json")]
  ∧ ((MSRAPi.init o u p).pr_post_logbook_entry_request payload).auth = some (u, p)
  ∧ ((MSRAPi.init o u p).pr_post_logbook_entry t payload).1 =
      t ((MSRAPi.init o u p).pr_post_logbook_entry_request payload) :=
  ⟨rfl, rfl, rfl, rfl, rfl, rfl⟩

/-- How both dispatch primitives consume the single transport outcome: a
transport failure is returned unchanged, and any response — whatever its
status code — has its JSON body decoded and returned; the status code is
never inspected. -/
def MSRAPi.decode_outcome (self : MSRAPi) :
    Except TransportError Response → Except TransportError Json × MSRAPi
  | Except.error e => (Except.error e, self)
  | Except.ok r => (Except.ok r.jsonBody, self)

/-- C6: every operation applies the transport to exactly one request (its
result is the decoding of the single transport outcome at that request), a
transport failure propagates to the caller unchanged, and a response is
decoded and returned whatever its status code — no retry and no status-code
inspection anywhere. -/
theorem single_request_error_transparency (c : MSRAPi) (t : Transport)
    (oid vid tid eid sid mid vhid pid lid : String) (q i tm hq : Bool)
    (payload : Json) (e : TransportError) (s : Nat) (j : Json) :
    c.public_calendar t oid =
      c.decode_outcome (t (public_get (c.public_calendar_resource oid)))
  ∧ c.pr_calendar t = c.decode_outcome (t (c.auth_get c.pr_calendar_resource))
  ∧ c.pr_venue_calendar t vid =
      c.decode_outcome (t (c.auth_get (c.pr_venue_calendar_resource vid)))
  ∧ c.pr_calendar_by_type t tid =
      c.decode_outcome (t (c.auth_get (c.pr_calendar_by_type_resource tid)))
  ∧ c.pr_attendees t eid q =
      c.decode_outcome (t (c.auth_get (c.pr_attendees_resource eid q)))
  ∧ c.pr_assignments t eid i tm =
      c.decode_outcome (t (c.auth_get (c.pr_assignments_resource eid i tm)))
  ∧ c.pr_assignments_by_segment t eid sid i tm =
      c.decode_outcome (t (c.auth_get (c.pr_assignments_by_segment_resource eid sid i tm)))
  ∧ c.pr_event_segments t eid =
      c.decode_outcome (t (c.auth_get (c.pr_event_segments_resource eid)))
  ∧ c.pr_members t = c.decode_outcome (t (c.auth_get c.pr_members_resource))
  ∧ c.pr_member t mid q hq =
      c.decode_outcome (t (c.auth_get (c.pr_member_resource mid q hq)))
  ∧ c.pr_profile t pid = c.decode_outcome (t (c.auth_get (c.pr_profile_resource pid)))
  ∧ c.pr_member_vehicles t mid =
      c.decode_outcome (t (c.auth_get (c.pr_member_vehicles_resource mid)))
  ∧ c.pr_member_vehicle t mid vhid =
      c.decode_outcome (t (c.auth_get (c.pr_member_vehicle_resource mid vhid)))
  ∧ c.pr_member_logbook t mid =
      c.decode_outcome (t (c.auth_get (c.pr_member_logbook_resource mid)))
  ∧ c.pr_logbook_types t = c.decode_outcome (t (c.auth_get c.pr_logbook_types_resource))
  ∧ c.pr_get_logbook_entry t lid =
      c.decode_outcome (t (c.auth_get (c.pr_get_logbook_entry_resource lid)))
  ∧ c.pr_post_logbook_entry t payload =
      (t (c.pr_post_logbook_entry_request payload), c)
  ∧ c.decode_outcome (Except.error e) = (Except.error e, c)
  ∧ c.public_calendar (fun _ => Except.error e) oid = (Except.error e, c)
  ∧ c.pr_calendar (fun _ => Except.error e) = (Except.error e, c)
  ∧ c.pr_venue_calendar (fun _ => Except.error e) vid = (Except.error e, c)
  ∧ c.pr_calendar_by_type (fun _ => Except.error e) tid = (Except.error e, c)
  ∧ c.pr_attendees (fun _ => Except.error e) eid q = (Except.error e, c)
  ∧ c.pr_assignments (fun _ => Except.error e) eid i tm = (Except.error e, c)
  ∧ c.pr_assignments_by_segment (fun _ => Except.error e) eid sid i tm = (Except.error e, c)
  ∧ c.pr_event_segments (fun _ => Except.error e) eid = (Except.error e, c)
  ∧ c.pr_members (fun _ => Except.error e) = (Except.error e, c)
  ∧ c.pr_member (fun _ => Except.error e) mid q hq = (Except.error e, c)
  ∧ c.pr_profile (fun _ => Except.error e) pid = (Except.error e, c)
  ∧ c.pr_member_vehicles (fun _ => Except.error e) mid = (Except.error e, c)
  ∧ c.pr_member_vehicle (fun _ => Except.error e) mid vhid = (Except.error e, c)
  ∧ c.pr_member_logbook (fun _ => Except.error e) mid = (Except.error e, c)
  ∧ c.pr_logbook_types (fun _ => Except.error e) = (Except.error e, c)
  ∧ c.pr_get_logbook_entry (fun _ => Except.error e) lid = (Except.error e, c)
  ∧ (c.pr_post_logbook_entry (fun _ => Except.error e) payload).1 = Except.error e
  ∧ (c.public_calendar (fun _ => Except.ok (Response.mk s j)) oid).1 = Except.ok j
  ∧ (c.pr_calendar (fun _ => Except.ok (Response.mk s j))).1 = Except.ok j
  ∧ (c.pr_venue_calendar (fun _ => Except.ok (Response.mk s j)) vid).1 = Except.ok j
  ∧ (c.pr_calendar_by_type (fun _ => Except.ok (Response.mk s j)) tid).1 = Except.ok j
  ∧ (c.pr_attendees (fun _ => Except.ok (Response.mk s j)) eid q).1 = Except.ok j
  ∧ (c.pr_assignments (fun _ => Except.ok (Response.mk s j)) eid i tm).1 = Except.ok j
  ∧ (c.pr_assignments_by_segment (fun _ => Except.ok (Response.mk s j)) eid sid i tm).1 =
      Except.ok j
  ∧ (c.pr_event_segments (fun _ => Except.ok (Response.mk s j)) eid).1 = Except.ok j
  ∧ (c.pr_members (fun _ => Except.ok (Response.mk s j))).1 = Except.ok j
  ∧ (c.pr_member (fun _ => Except.ok (Response.mk s j)) mid q hq).1 = Except.ok j
  ∧ (c.pr_profile (fun _ => Except.ok (Response.mk s j)) pid).1 = Except.ok j
  ∧ (c.pr_member_vehicles (fun _ => Except.ok (Response.mk s j)) mid).1 = Except.ok j
  ∧ (c.pr_member_vehicle (fun _ => Except.ok (Response.mk s j)) mid vhid).1 = Except.ok j
  ∧ (c.pr_member_logbook (fun _ => Except.ok (Response.mk s j)) mid).1 = Except.ok j
  ∧ (c.pr_logbook_types (fun _ => Except.ok (Response.mk s j))).1 = Except.ok j
  ∧ (c.pr_get_logbook_entry (fun _ => Except.ok (Response.mk s j)) lid).1 = Except.ok j :=
  ⟨rfl, rfl, rfl, rfl, rfl, rfl, rfl, rfl, rfl, rfl, rfl, rfl, rfl, rfl, rfl, rfl, rfl,
   rfl, rfl, rfl, rfl, rfl, rfl, rfl, rfl, rfl, rfl, rfl, rfl, rfl, rfl, rfl, rfl, rfl,
   rfl, rfl, rfl, rfl, rfl, rfl, rfl, rfl, rfl, rfl, rfl, rfl, rfl, rfl, rfl, rfl, rfl⟩

/-- C7: for every operation and every transport outcome, the client state
returned after the call is exactly the client state before the call — the
stored organization identifier, username, password and base URL are never
written outside construction. -/
theorem client_state_immutable (c : MSRAPi) (t : Transport)
    (oid vid tid eid sid mid vhid pid lid : String) (q i tm hq : Bool)
    (payload : Json) :
    (c.public_calendar t oid).2 = c
  ∧ (c.pr_calendar t).2 = c
  ∧ (c.pr_venue_calendar t vid).2 = c
  ∧ (c.pr_calendar_by_type t tid).2 = c
  ∧ (c.pr_attendees t eid q).2 = c
  ∧ (c.pr_assignments t eid i tm).2 = c
  ∧ (c.pr_assignments_by_segment t eid sid i tm).2 = c
  ∧ (c.pr_event_segments t eid).2 = c
  ∧ (c.pr_members t).2 = c
  ∧ (c.pr_member t mid q hq).2 = c
  ∧ (c.pr_profile t pid).2 = c
  ∧ (c.pr_member_vehicles t mid).2 = c
  ∧ (c.pr_member_vehicle t mid vhid).2 = c
  ∧ (c.pr_member_logbook t mid).2 = c
  ∧ (c.pr_logbook_types t).2 = c
  ∧ (c.pr_get_logbook_entry t lid).2 = c
  ∧ (c.pr_post_logbook_entry t payload).2 = c := by
  refine ⟨?_, ?_, ?_, ?_, ?_, ?_, ?_, ?_, ?_, ?_, ?_, ?_, ?_, ?_, ?_, ?_, rfl⟩ <;>
  · show (MSRAPi.decode_outcome c _).2 = c
    cases h : (t _ : Except TransportError Response) <;> rfl

/-- C8: the constructor accepts any organization identifier, username and
password, stores the three values verbatim, and sets the base URL to the
fixed service prefix. -/
theorem constructor_stores_verbatim (o u p : String) :
    (MSRAPi.init o u p).organization_id = o
  ∧ (MSRAPi.init o u p).username = u
  ∧ (MSRAPi.init o u p).password = p
  ∧ (MSRAPi.init o u p).base_url = "https://api.motorsportreg.com/rest/" :=
  ⟨rfl, rfl, rfl, rfl⟩

/-- C9: public_calendar does not depend on the stored credentials: two clients
constructed with arbitrary (in particular different) credentials build the
identical unauthenticated request for the same organization-id argument, and
the same transport gives them equal results. -/
theorem public_calendar_credential_independence
    (o₁ u₁ p₁ o₂ u₂ p₂ oid : String) (t : Transport) :
    public_get ((MSRAPi.init o₁ u₁ p₁).public_calendar_resource oid) =
      public_get ((MSRAPi.init o₂ u₂ p₂).public_calendar_resource oid)
  ∧ (public_get ((MSRAPi.init o₁ u₁ p₁).public_calendar_resource oid)).auth = none
  ∧ (public_get ((MSRAPi.init o₁ u₁ p₁).public_calendar_resource oid)).headers = []
  ∧ ((MSRAPi.init o₁ u₁ p₁).public_calendar t oid).1 =
      ((MSRAPi.init o₂ u₂ p₂).public_calendar t oid).1 := by
  refine ⟨rfl, rfl, rfl, ?_⟩
  have h₁ : ((MSRAPi.init o₁ u₁ p₁).public_calendar t oid).1 =
      ((MSRAPi.init o₁ u₁ p₁).decode_outcome (t (public_get
        ("https://api.motorsportreg.com/rest/calendars/organization/" ++ oid ++ ".json")))).1 := rfl
  have h₂ : ((MSRAPi.init o₂ u₂ p₂).public_calendar t oid).1 =
      ((MSRAPi.init o₂ u₂ p₂).decode_outcome (t (public_get
        ("https://api.motorsportreg.com/rest/calendars/organization/" ++ oid ++ ".json")))).1 := rfl
  rw [h₁, h₂]
  cases t (public_get
    ("https://api.motorsportreg.com/rest/calendars/organization/" ++ oid ++ ".json")) <;> rfl

/-- C10: every optional inclusion flag defaults to True — calling the four
flagged operations with the flag arguments omitted builds the URL that
carries the fields parameter with all options of that operation, and the
whole call behaves as the authenticated request at that URL. -/
theorem inclusion_flags_default_true (c : MSRAPi) (t : Transport) (eid sid mid : String) :
    c.pr_attendees_resource eid =
      c.base_url ++ "events/" ++ eid ++ "/attendees.json?fields=questions"
  ∧ c.pr_attendees t eid = c.authenticated_request t
      (c.base_url ++ "events/" ++ eid ++ "/attendees.json?fields=questions")
  ∧ c.pr_assignments_resource eid =
      c.base_url ++ "events/" ++ eid ++ "/assignments.json?fields=instructors,team"
  ∧ c.pr_assignments t eid = c.authenticated_request t
      (c.base_url ++ "events/" ++ eid ++ "/assignments.json?fields=instructors,team")
  ∧ c.pr_assignments_by_segment_resource eid sid =
      c.base_url ++ "events/" ++ eid ++ "/segments/" ++ sid ++
        "/assignments.json?fields=instructors,team"
  ∧ c.pr_assignments_by_segment t eid sid = c.authenticated_request t
      (c.base_url ++ "events/" ++ eid ++ "/segments/" ++ sid ++
        "/assignments.json?fields=instructors,team")
  ∧ c.pr_member_resource mid =
      c.base_url ++ "members/" ++ mid ++ ".json?fields=questions,history"
  ∧ c.pr_member t mid = c.authenticated_request t
      (c.base_url ++ "members/" ++ mid ++ ".json?fields=questions,history") :=
  ⟨rfl, rfl, rfl, rfl, rfl, rfl, rfl, rfl⟩
